import Mathlib

/-!
Shallow embedding of the logs SSE gateway
(src/logs-sse-gateway/server/logs-gateway.js) and proofs about its
publish, subscribe, fan-out and registry behavior.

Modelling conventions:
- JavaScript string values that may be `undefined` are `Option String`;
  `none` is `undefined`.
- JavaScript truthiness of such a value: `undefined` and the empty string
  are falsy, every other string is truthy (`jsTruthy`).
- Template-literal interpolation of a possibly-undefined value renders
  `undefined` as the string "undefined" (`jsInterp`), as in JavaScript.
- `Map` is an association list keyed by `String`, in insertion order;
  `Set` is a duplicate-free list in insertion order.
- `JSON.stringify` is `renderJson` over an explicit JSON value type; keys
  are rendered in insertion order, as V8 does for these objects.
- Writes to HTTP response streams are collected as pure data; the model
  assumes writes do not throw (the catch branch of broadcastLog is for
  socket failures, which the embedding does not model).
- `Date.now()` and the random id suffix are supplied as parameters
  (`now`, `genId`); `genId` is indexed by the number of envelopes already
  minted during one fan-out.
-/

namespace LogsGateway

/-- JSON values, the payload type of the gateway. -/
inductive Json where
  | null : Json
  | bool (b : Bool) : Json
  | num (n : Nat) : Json
  | str (s : String) : Json
  | arr (elems : List Json) : Json
  | obj (fields : List (String × Json)) : Json
  deriving Repr

/-- Escaping of one character inside a JSON string literal. -/
def escapeChar (c : Char) : String :=
  if c = '"' then "\\\""
  else if c = '\\' then "\\\\"
  else if c = '\n' then "\\n"
  else if c = '\r' then "\\r"
  else if c = '\t' then "\\t"
  else String.mk [c]

/-- Escaping of a JSON string literal body. -/
def escape (s : String) : String :=
  String.join (s.data.map escapeChar)

mutual

/-- Serializer corresponding to JSON.stringify on the values the gateway
builds: object keys in insertion order, no extra whitespace. -/
def renderJson : Json → String
  | .null => "null"
  | .bool b => if b then "true" else "false"
  | .num n => toString n
  | .str s => "\"" ++ escape s ++ "\""
  | .arr es => "[" ++ renderArr es ++ "]"
  | .obj fs => "\x7b" ++ renderObj fs ++ "\x7d"

/-- Serializer for JSON array elements, comma separated. -/
def renderArr : List Json → String
  | [] => ""
  | [e] => renderJson e
  | e :: e2 :: es => renderJson e ++ "," ++ renderArr (e2 :: es)

/-- Serializer for JSON object fields, comma separated. -/
def renderObj : List (String × Json) → String
  | [] => ""
  | [(k, v)] => "\"" ++ escape k ++ "\":" ++ renderJson v
  | (k, v) :: f :: fs => "\"" ++ escape k ++ "\":" ++ renderJson v ++ "," ++ renderObj (f :: fs)

end

/-- JavaScript truthiness of a possibly-undefined string. -/
def jsTruthy : Option String → Bool
  | none => false
  | some s => s ≠ ""

/-- Template-literal interpolation of a possibly-undefined string. -/
def jsInterp : Option String → String
  | none => "undefined"
  | some s => s

/-- Helper for `jsSplit`: walk the characters, cutting at the separator. -/
def splitAux (sep : Char) : List Char → List Char → List String
  | [], acc => [String.mk acc.reverse]
  | c :: cs, acc =>
      if c = sep then String.mk acc.reverse :: splitAux sep cs []
      else splitAux sep cs (c :: acc)

/-- JavaScript String.split with a single-character separator: the result
is never empty, and empty fragments are kept. -/
def jsSplit (s : String) (sep : Char) : List String :=
  splitAux sep s.data []

/-- Lookup in an association list, as Map.get: first (unique) matching key. -/
def mapGet {α : Type} : List (String × α) → String → Option α
  | [], _ => none
  | p :: rest, k => if p.1 = k then some p.2 else mapGet rest k

/-- Update in an association list, as Map.set: replace in place, else append. -/
def mapSet {α : Type} : List (String × α) → String → α → List (String × α)
  | [], k, v => [(k, v)]
  | p :: rest, k, v =>
      if p.1 = k then (k, v) :: rest else p :: mapSet rest k v

/-- Removal from an association list, as Map.delete. -/
def mapDelete {α : Type} : List (String × α) → String → List (String × α)
  | [], _ => []
  | p :: rest, k => if p.1 = k then mapDelete rest k else p :: mapDelete rest k

/-- Set.add on a duplicate-free list: append if absent. -/
def setAdd (s : List String) (x : String) : List String :=
  if x ∈ s then s else s ++ [x]

/-- Set.delete on a list: drop every occurrence. -/
def setDelete (s : List String) (x : String) : List String :=
  s.filter (fun y => y != x)

/-- The mock principal attached by the authentication middleware:
a user id and the workspace ids the user belongs to. -/
structure User where
  id : String
  workspace_ids : List String
  deriving Repr, DecidableEq

/-- Per-connection data stored in the `connections` map. -/
structure ConnData where
  userId : String
  channels : List String
  connectedAt : Nat
  logsSent : Nat
  deriving Repr, DecidableEq

/-- The mutable state of a LogsSSEGateway instance: the primary connection
map, the reverse channel index, and the counters it keeps. -/
structure GatewayState where
  connections : List (String × ConnData)
  logChannels : List (String × List String)
  totalConnections : Nat
  logsPublished : Nat
  deriving Repr, DecidableEq

/-- The state of a freshly constructed gateway. -/
def initialState : GatewayState :=
  { connections := [], logChannels := [], totalConnections := 0, logsPublished := 0 }

/-- Body of a POST /api/logs/publish request. -/
structure PublishBody where
  service : Option String
  workspace_id : Option String
  workflow_id : Option String
  function_id : Option String
  logData : Json

/-- One write to one subscriber response stream during fan-out. -/
structure WriteEvent where
  connId : String
  wire : String
  deriving Repr, DecidableEq

/-- The result of a JavaScript property read on the validTokens object
literal: undefined, a string value, or a member inherited from
Object.prototype (a function, or Object.prototype itself for the
well-known accessor), which strict equality distinguishes from undefined
and from every string. -/
inductive JsProp where
  | undef : JsProp
  | strVal (s : String) : JsProp
  | protoMember (name : String) : JsProp
  deriving Repr, DecidableEq

/-- The property names every plain object literal inherits from
Object.prototype; reading them yields a non-undefined member. -/
def objectProtoKeys : List String :=
  ["constructor", "hasOwnProperty", "isPrototypeOf", "propertyIsEnumerable",
   "toLocaleString", "toString", "valueOf", "__proto__",
   "__defineGetter__", "__defineSetter__", "__lookupGetter__", "__lookupSetter__"]

/-- The declared service as a JavaScript value: undefined or a string. -/
def jsPropOfService : Option String → JsProp
  | none => JsProp.undef
  | some s => JsProp.strVal s

/-- The token lookup inside validateLogPublisher: the four own keys of the
object literal first ("service-token" maps to the declared service
itself), then the members inherited from Object.prototype, then
undefined. -/
def validTokens (service : Option String) (token : String) : JsProp :=
  if token = "l5-etl-token" then JsProp.strVal "etl"
  else if token = "faas-token" then JsProp.strVal "faas"
  else if token = "function-token" then JsProp.strVal "function"
  else if token = "service-token" then jsPropOfService service
  else if token ∈ objectProtoKeys then JsProp.protoMember token
  else JsProp.undef

/-- validateLogPublisher(token, service): look the token up (an absent
header indexes the literal key "undefined", a miss) and compare the result
with the declared service using strict equality. -/
def validateLogPublisher (token : Option String) (service : Option String) : Bool :=
  decide ((match token with
   | none => validTokens service "undefined"
   | some t => validTokens service t) = jsPropOfService service)

/-- Channel derivation in handleLogsPublish: function_id wins, then
workflow_id, then the bare service/workspace channel. -/
def deriveChannel (b : PublishBody) : String :=
  if jsTruthy b.function_id then
    "logs:function:" ++ jsInterp b.workspace_id ++ ":" ++ jsInterp b.function_id
  else if jsTruthy b.workflow_id then
    "logs:" ++ jsInterp b.service ++ ":" ++ jsInterp b.workspace_id ++ ":" ++ jsInterp b.workflow_id
  else
    "logs:" ++ jsInterp b.service ++ ":" ++ jsInterp b.workspace_id

/-- The per-channel test inside getUserLogChannels: split on the colon,
require the first component to be "logs" and the third component to be one
of the workspaces of the user. -/
def channelAllowed (user : User) (channel : String) : Bool :=
  ((jsSplit channel ':').get? 0 == some "logs") &&
    (match (jsSplit channel ':').get? 2 with
     | some w => user.workspace_ids.contains w
     | none => false)

/-- getUserLogChannels(user, requestedChannels): keep exactly the requested
channels that pass `channelAllowed`, in order, without deduplication. -/
def getUserLogChannels (user : User) (requestedChannels : List String) : List String :=
  requestedChannels.filter (channelAllowed user)

/-- The requested channel list of a subscribe request: the channels query
parameter split on commas when truthy, empty otherwise. -/
def requestedChannelsOf : Option String → List String
  | none => []
  | some s => if s = "" then [] else jsSplit s ','

/-- The JSON object of the connection confirmation record. -/
def connectionJson (channels : List String) (userId connId : String) (now : Nat) : Json :=
  Json.obj
    [("type", Json.str "connection"),
     ("status", Json.str "connected"),
     ("channels", Json.arr (channels.map Json.str)),
     ("userId", Json.str userId),
     ("connectionId", Json.str connId),
     ("timestamp", Json.num now)]

/-- Subscription of one connection to one channel: create the entry when
absent, then Set.add the connection id. -/
def subscribeOne (lc : List (String × List String)) (connId ch : String) :
    List (String × List String) :=
  mapSet lc ch (setAdd ((mapGet lc ch).getD []) connId)

/-- The forEach loop of handleLogsSSE over the allowed channels. -/
def subscribeAll (lc : List (String × List String)) (connId : String) :
    List String → List (String × List String)
  | [] => lc
  | ch :: chs => subscribeAll (subscribeOne lc connId ch) connId chs

/-- The headers handleLogsSSE sends with its 200 response. -/
def sseHeaders : List (String × String) :=
  [("Content-Type", "text/event-stream"),
   ("Cache-Control", "no-cache, no-transform"),
   ("Connection", "keep-alive"),
   ("X-Accel-Buffering", "no"),
   ("Access-Control-Allow-Origin", "*"),
   ("Access-Control-Allow-Headers", "Cache-Control, Authorization, X-User-Id, X-Workspace-Id")]

/-- Result of handleLogsSSE: response status and headers, the records
written by the handler itself, and the gateway state afterwards. -/
structure SSEResult where
  status : Nat
  headers : List (String × String)
  writes : List String
  state : GatewayState

/-- handleLogsSSE(req, res): filter the requested channels, answer 200 with
SSE headers, register the connection, index it under each allowed channel,
and write the connection confirmation record first. -/
def handleLogsSSE (st : GatewayState) (user : User) (channelsQuery : Option String)
    (connId : String) (now : Nat) : SSEResult :=
  let requested := requestedChannelsOf channelsQuery
  let allowed := getUserLogChannels user requested
  let conn : ConnData :=
    { userId := user.id, channels := allowed, connectedAt := now, logsSent := 0 }
  { status := 200,
    headers := sseHeaders,
    writes := ["data: " ++ renderJson (connectionJson allowed user.id connId now) ++ "\n\n"],
    state :=
      { st with
        connections := mapSet st.connections connId conn,
        totalConnections := st.totalConnections + 1,
        logChannels := subscribeAll st.logChannels connId allowed } }

/-- The per-subscriber log message object built inside broadcastLog. -/
def mkLogMessage (channel : String) (logData : Json) (now : Nat) (eid : String) : Json :=
  Json.obj
    [("channel", Json.str channel),
     ("data", logData),
     ("timestamp", Json.num now),
     ("id", Json.str eid)]

/-- The wire form of one data record: an id line, a data line carrying the
serialized message, and the blank record terminator. -/
def wireRecord (eid : String) (body : Json) : String :=
  "id: " ++ eid ++ "\ndata: " ++ renderJson body ++ "\n\n"

/-- The forEach loop of broadcastLog over the subscriber ids of a channel:
skip ids without a live connection; for live ones mint an envelope, write
it, bump logsSent and the delivered counter. -/
def broadcastList (channel : String) (logData : Json) (now : Nat) (genId : Nat → String) :
    List (String × ConnData) → Nat → List String →
    List (String × ConnData) × List WriteEvent × Nat
  | conns, delivered, [] => (conns, [], delivered)
  | conns, delivered, cid :: rest =>
      match mapGet conns cid with
      | none => broadcastList channel logData now genId conns delivered rest
      | some conn =>
          let eid := genId delivered
          let ev : WriteEvent :=
            { connId := cid, wire := wireRecord eid (mkLogMessage channel logData now eid) }
          let conns2 := mapSet conns cid { conn with logsSent := conn.logsSent + 1 }
          let r := broadcastList channel logData now genId conns2 (delivered + 1) rest
          (r.1, ev :: r.2.1, r.2.2)

/-- broadcastLog(channel, logData): fan the payload out to the subscriber
set of the channel and return the new state, the writes, and the count of
deliveries. -/
def broadcastLog (st : GatewayState) (channel : String) (logData : Json)
    (now : Nat) (genId : Nat → String) : GatewayState × List WriteEvent × Nat :=
  let r := broadcastList channel logData now genId st.connections 0
    ((mapGet st.logChannels channel).getD [])
  ({ st with connections := r.1 }, r.2.1, r.2.2)

/-- The 403 body handleLogsPublish answers when validation fails. -/
def unauthorizedBody : Json :=
  Json.obj [("error", Json.str "Unauthorized log publisher")]

/-- Result of handleLogsPublish: status, JSON body, the fan-out writes, and
the gateway state afterwards. -/
structure PublishResult where
  status : Nat
  body : Json
  writes : List WriteEvent
  state : GatewayState

/-- handleLogsPublish(req, res): validate the service token against the
declared service, derive the channel, broadcast, and answer. On validation
failure answer 403 with the unauthorized body and touch nothing. -/
def handleLogsPublish (st : GatewayState) (token : Option String) (b : PublishBody)
    (now : Nat) (genId : Nat → String) : PublishResult :=
  if validateLogPublisher token b.service then
    let channel := deriveChannel b
    let r := broadcastLog st channel b.logData now genId
    { status := 200,
      body := Json.obj
        [("success", Json.bool true),
         ("channel", Json.str channel),
         ("delivered", Json.num r.2.2),
         ("timestamp", Json.num now)],
      writes := r.2.1,
      state := { r.1 with logsPublished := r.1.logsPublished + 1 } }
  else
    { status := 403, body := unauthorizedBody, writes := [], state := st }

/-- Removal of one connection id from the subscriber entry of one channel,
deleting the entry when it becomes empty. -/
def removeFromChannel (lc : List (String × List String)) (connId ch : String) :
    List (String × List String) :=
  match mapGet lc ch with
  | none => lc
  | some subs =>
      let subs2 := setDelete subs connId
      if subs2.length = 0 then mapDelete lc ch else mapSet lc ch subs2

/-- The forEach loop of removeConnection over the channels of the
connection being removed. -/
def removeAll (lc : List (String × List String)) (connId : String) :
    List String → List (String × List String)
  | [] => lc
  | ch :: chs => removeAll (removeFromChannel lc connId ch) connId chs

/-- removeConnection(connectionId): drop the connection from every channel
entry it appears under, then from the primary map; no-op when unknown. -/
def removeConnection (st : GatewayState) (connId : String) : GatewayState :=
  match mapGet st.connections connId with
  | none => st
  | some conn =>
      { st with
        logChannels := removeAll st.logChannels connId conn.channels,
        connections := mapDelete st.connections connId }

/-- A connection id sits in a channel entry of a reverse index list. -/
def chanMem (lc : List (String × List String)) (connId channel : String) : Prop :=
  ∃ subs, mapGet lc channel = some subs ∧ connId ∈ subs

/-- Every entry of a reverse index list is nonempty. -/
def entriesNonempty (lc : List (String × List String)) : Prop :=
  ∀ channel subs, mapGet lc channel = some subs → subs ≠ []

/-- A connection id sits in the reverse index under a channel. -/
def inReverseIndex (st : GatewayState) (connId channel : String) : Prop :=
  chanMem st.logChannels connId channel

/-- A live connection whose channel set contains the channel. -/
def connSubscribed (st : GatewayState) (connId channel : String) : Prop :=
  ∃ conn, mapGet st.connections connId = some conn ∧ channel ∈ conn.channels

/-- The registry invariant: the reverse index holds exactly the live
subscriptions, and never keeps an empty entry. -/
def RegistryInvariant (st : GatewayState) : Prop :=
  (∀ channel connId, inReverseIndex st connId channel ↔ connSubscribed st connId channel) ∧
  entriesNonempty st.logChannels

/-- Gateway states reachable from a fresh gateway through the three
state-changing handlers. Subscribe steps carry the freshness of the
generated connection id (ids embed the clock and a random suffix and are
never reused). -/
inductive Reachable : GatewayState → Prop where
  | init : Reachable initialState
  | subscribe (st : GatewayState) (user : User) (channelsQuery : Option String)
      (connId : String) (now : Nat) :
      Reachable st → mapGet st.connections connId = none →
      Reachable (handleLogsSSE st user channelsQuery connId now).state
  | publish (st : GatewayState) (token : Option String) (b : PublishBody)
      (now : Nat) (genId : Nat → String) :
      Reachable st → Reachable (handleLogsPublish st token b now genId).state
  | disconnect (st : GatewayState) (connId : String) :
      Reachable st → Reachable (removeConnection st connId)

/-! ### Association list and set lemmas -/

/-- Reading back a Map.set: the written key holds the new value, every
other key is untouched. -/
theorem mapGet_mapSet {α : Type} (m : List (String × α)) (k : String) (v : α) (j : String) :
    mapGet (mapSet m k v) j = if j = k then some v else mapGet m j := by
  induction m with
  | nil =>
      by_cases h : j = k
      · simp [mapSet, mapGet, h]
      · simp [mapSet, mapGet, h, Ne.symm h]
  | cons p rest ih =>
      by_cases hp : p.1 = k
      · by_cases h : j = k
        · simp [mapSet, mapGet, hp, h]
        · simp [mapSet, mapGet, hp, h, Ne.symm h]
      · by_cases h : j = k
        · subst h
          simp [mapSet, mapGet, hp, ih]
        · simp [mapSet, mapGet, hp, h, ih]

/-- Reading back a Map.delete: the deleted key is gone, every other key is
untouched. -/
theorem mapGet_mapDelete {α : Type} (m : List (String × α)) (k : String) (j : String) :
    mapGet (mapDelete m k) j = if j = k then none else mapGet m j := by
  induction m with
  | nil => simp [mapDelete, mapGet]
  | cons p rest ih =>
      by_cases hp : p.1 = k
      · rw [show mapDelete (p :: rest) k = mapDelete rest k from by simp [mapDelete, hp], ih]
        by_cases h : j = k
        · simp [h]
        · simp [h, mapGet, hp, Ne.symm h]
      · by_cases h : j = k
        · subst h
          simp [mapDelete, mapGet, hp, ih]
        · simp [mapDelete, mapGet, hp, h, ih]

/-- Membership after Set.add. -/
theorem mem_setAdd (s : List String) (x y : String) :
    y ∈ setAdd s x ↔ y ∈ s ∨ y = x := by
  unfold setAdd
  by_cases h : x ∈ s
  · simp only [if_pos h]
    constructor
    · exact Or.inl
    · rintro (hy | rfl)
      · exact hy
      · exact h
  · simp [if_neg h]

/-- Set.add never produces the empty list. -/
theorem setAdd_ne_nil (s : List String) (x : String) : setAdd s x ≠ [] := by
  unfold setAdd
  by_cases h : x ∈ s
  · simp only [if_pos h]
    intro hnil
    subst hnil
    simp at h
  · simp [if_neg h]

/-- Membership after Set.delete. -/
theorem mem_setDelete (s : List String) (x y : String) :
    y ∈ setDelete s x ↔ y ∈ s ∧ y ≠ x := by
  simp [setDelete, List.mem_filter, bne_iff_ne]

/-- If Set.delete empties the list, every element was the deleted one. -/
theorem eq_of_setDelete_eq_nil (s : List String) (x y : String)
    (h : setDelete s x = []) (hy : y ∈ s) : y = x := by
  by_contra hne
  have : y ∈ setDelete s x := (mem_setDelete s x y).mpr ⟨hy, hne⟩
  rw [h] at this
  simp at this

/-! ### Reverse index lemmas -/

/-- Membership in the reverse index after subscribing one channel. -/
theorem chanMem_subscribeOne (lc : List (String × List String)) (cid ch i c : String) :
    chanMem (subscribeOne lc cid ch) i c ↔ chanMem lc i c ∨ (i = cid ∧ c = ch) := by
  unfold chanMem subscribeOne
  rw [mapGet_mapSet]
  by_cases h : c = ch
  · subst h
    cases hm : mapGet lc c with
    | none => simp [hm, mem_setAdd]
    | some s => simp [hm, mem_setAdd]
  · simp [h]

/-- Membership in the reverse index after subscribing a list of channels. -/
theorem chanMem_subscribeAll (lc : List (String × List String)) (cid : String)
    (chs : List String) (i c : String) :
    chanMem (subscribeAll lc cid chs) i c ↔ chanMem lc i c ∨ (i = cid ∧ c ∈ chs) := by
  induction chs generalizing lc with
  | nil => simp [subscribeAll]
  | cons ch chs ih =>
      simp only [subscribeAll]
      rw [ih, chanMem_subscribeOne]
      simp only [List.mem_cons]
      tauto

/-- Subscribing keeps every reverse index entry nonempty. -/
theorem entriesNonempty_subscribeOne (lc : List (String × List String)) (cid ch : String)
    (h : entriesNonempty lc) : entriesNonempty (subscribeOne lc cid ch) := by
  intro c subs hc
  unfold subscribeOne at hc
  rw [mapGet_mapSet] at hc
  by_cases hcc : c = ch
  · rw [if_pos hcc] at hc
    cases hc
    exact setAdd_ne_nil _ _
  · rw [if_neg hcc] at hc
    exact h c subs hc

/-- Subscribing a list of channels keeps every entry nonempty. -/
theorem entriesNonempty_subscribeAll (lc : List (String × List String)) (cid : String)
    (chs : List String) (h : entriesNonempty lc) :
    entriesNonempty (subscribeAll lc cid chs) := by
  induction chs generalizing lc with
  | nil => exact h
  | cons ch chs ih => exact ih _ (entriesNonempty_subscribeOne lc cid ch h)

/-- Membership in the reverse index after removing a connection from one
channel entry. -/
theorem chanMem_removeFromChannel (lc : List (String × List String)) (cid ch i c : String) :
    chanMem (removeFromChannel lc cid ch) i c ↔ chanMem lc i c ∧ ¬(i = cid ∧ c = ch) := by
  unfold chanMem removeFromChannel
  cases hm : mapGet lc ch with
  | none =>
      by_cases hcc : c = ch
      · subst hcc
        simp [hm]
      · simp [hcc]
  | some subs =>
      dsimp only
      by_cases hlen : (setDelete subs cid).length = 0
      · have hnil : setDelete subs cid = [] := List.length_eq_zero.mp hlen
        have hkey : i ∈ subs → i = cid := fun hj => eq_of_setDelete_eq_nil subs cid i hnil hj
        rw [if_pos hlen]
        by_cases hcc : c = ch
        · subst hcc
          simp [mapGet_mapDelete, hm]
          tauto
        · simp [mapGet_mapDelete, hcc]
      · rw [if_neg hlen]
        by_cases hcc : c = ch
        · subst hcc
          simp [mapGet_mapSet, hm, mem_setDelete]
        · simp [mapGet_mapSet, hcc]

/-- Membership in the reverse index after removing a connection from a list
of channel entries. -/
theorem chanMem_removeAll (lc : List (String × List String)) (cid : String)
    (chs : List String) (i c : String) :
    chanMem (removeAll lc cid chs) i c ↔ chanMem lc i c ∧ ¬(i = cid ∧ c ∈ chs) := by
  induction chs generalizing lc with
  | nil => simp [removeAll]
  | cons ch chs ih =>
      simp only [removeAll]
      rw [ih, chanMem_removeFromChannel]
      simp only [List.mem_cons]
      tauto

/-- Removing from one channel entry keeps every entry nonempty. -/
theorem entriesNonempty_removeFromChannel (lc : List (String × List String)) (cid ch : String)
    (h : entriesNonempty lc) : entriesNonempty (removeFromChannel lc cid ch) := by
  intro c subs hc
  unfold removeFromChannel at hc
  cases hm : mapGet lc ch with
  | none =>
      rw [hm] at hc
      exact h c subs hc
  | some s =>
      rw [hm] at hc
      dsimp only at hc
      by_cases hlen : (setDelete s cid).length = 0
      · rw [if_pos hlen, mapGet_mapDelete] at hc
        by_cases hcc : c = ch
        · simp [hcc] at hc
        · rw [if_neg hcc] at hc
          exact h c subs hc
      · rw [if_neg hlen, mapGet_mapSet] at hc
        by_cases hcc : c = ch
        · rw [if_pos hcc] at hc
          cases hc
          intro hnil
          exact hlen (by rw [hnil]; rfl)
        · rw [if_neg hcc] at hc
          exact h c subs hc

/-- Removing from a list of channel entries keeps every entry nonempty. -/
theorem entriesNonempty_removeAll (lc : List (String × List String)) (cid : String)
    (chs : List String) (h : entriesNonempty lc) :
    entriesNonempty (removeAll lc cid chs) := by
  induction chs generalizing lc with
  | nil => exact h
  | cons ch chs ih => exact ih _ (entriesNonempty_removeFromChannel lc cid ch h)

/-! ### Fan-out lemmas -/

/-- Counting with extensionally equal predicates. -/
theorem countP_ext {α : Type} (p q : α → Bool) (l : List α) (h : ∀ a ∈ l, p a = q a) :
    l.countP p = l.countP q := by
  induction l with
  | nil => rfl
  | cons a l ih =>
      simp only [List.countP_cons, h a (by simp), ih (fun b hb => h b (by simp [hb]))]

/-- Fan-out only bumps logsSent: the channel set recorded for every
connection id is unchanged. -/
theorem broadcastList_channels (channel : String) (logData : Json) (now : Nat)
    (genId : Nat → String) (subs : List String) :
    ∀ (conns : List (String × ConnData)) (delivered : Nat) (i : String),
    (mapGet (broadcastList channel logData now genId conns delivered subs).1 i).map
        ConnData.channels
      = (mapGet conns i).map ConnData.channels := by
  induction subs with
  | nil =>
      intro conns delivered i
      simp [broadcastList]
  | cons cid rest ih =>
      intro conns delivered i
      cases hm : mapGet conns cid with
      | none =>
          simp only [broadcastList, hm]
          exact ih conns delivered i
      | some conn =>
          simp only [broadcastList, hm]
          rw [ih, mapGet_mapSet]
          by_cases h : i = cid
          · subst h
            simp [hm]
          · simp [h]

/-- Fan-out keeps the domain of the connection map. -/
theorem broadcastList_isSome (channel : String) (logData : Json) (now : Nat)
    (genId : Nat → String) (subs : List String)
    (conns : List (String × ConnData)) (delivered : Nat) (i : String) :
    (mapGet (broadcastList channel logData now genId conns delivered subs).1 i).isSome
      = (mapGet conns i).isSome := by
  have h := broadcastList_channels channel logData now genId subs conns delivered i
  cases hA : mapGet (broadcastList channel logData now genId conns delivered subs).1 i <;>
    cases hB : mapGet conns i <;> rw [hA, hB] at h <;> simp_all

/-- The delivered counter of a fan-out counts exactly the subscriber ids
with a live connection, on top of its starting value. -/
theorem broadcastList_delivered (channel : String) (logData : Json) (now : Nat)
    (genId : Nat → String) (subs : List String) :
    ∀ (conns : List (String × ConnData)) (delivered : Nat),
    (broadcastList channel logData now genId conns delivered subs).2.2
      = delivered + subs.countP (fun cid => (mapGet conns cid).isSome) := by
  induction subs with
  | nil =>
      intro conns delivered
      simp [broadcastList]
  | cons cid rest ih =>
      intro conns delivered
      cases hm : mapGet conns cid with
      | none =>
          simp only [broadcastList, hm]
          rw [ih]
          simp [List.countP_cons, hm]
      | some conn =>
          simp only [broadcastList, hm]
          rw [ih]
          rw [countP_ext _ (fun cid => (mapGet conns cid).isSome) rest ?hpt]
          · simp only [List.countP_cons, hm]
            simp
            omega
          case hpt =>
            intro j hj
            rw [mapGet_mapSet]
            by_cases h : j = cid
            · subst h
              simp [hm]
            · simp [h]

/-- One write event per delivery: the final counter exceeds the starting
one by the number of writes. -/
theorem broadcastList_events_count (channel : String) (logData : Json) (now : Nat)
    (genId : Nat → String) (subs : List String) :
    ∀ (conns : List (String × ConnData)) (delivered : Nat),
    (broadcastList channel logData now genId conns delivered subs).2.2
      = delivered + (broadcastList channel logData now genId conns delivered subs).2.1.length := by
  induction subs with
  | nil =>
      intro conns delivered
      simp [broadcastList]
  | cons cid rest ih =>
      intro conns delivered
      cases hm : mapGet conns cid with
      | none =>
          simp only [broadcastList, hm]
          exact ih conns delivered
      | some conn =>
          simp only [broadcastList, hm]
          rw [ih]
          simp
          omega

/-- Every write of a fan-out is a data record in wire form: an id line and
a data line whose JSON carries the channel, the payload verbatim, the
timestamp, and the same envelope id. -/
theorem broadcastList_wire_form (channel : String) (logData : Json) (now : Nat)
    (genId : Nat → String) (subs : List String) :
    ∀ (conns : List (String × ConnData)) (delivered : Nat) (ev : WriteEvent),
    ev ∈ (broadcastList channel logData now genId conns delivered subs).2.1 →
    ∃ eid, ev.wire = wireRecord eid (mkLogMessage channel logData now eid) := by
  induction subs with
  | nil =>
      intro conns delivered ev h
      simp [broadcastList] at h
  | cons cid rest ih =>
      intro conns delivered ev h
      cases hm : mapGet conns cid with
      | none =>
          simp only [broadcastList, hm] at h
          exact ih _ _ _ h
      | some conn =>
          simp only [broadcastList, hm] at h
          rcases List.mem_cons.mp h with h1 | h2
          · subst h1
            exact ⟨genId delivered, rfl⟩
          · exact ih _ _ _ h2

/-- Two connection maps agreeing on recorded channel sets subscribe the
same pairs. -/
theorem connSubscribed_congr (A B : List (String × ConnData)) (i c : String)
    (h : (mapGet A i).map ConnData.channels = (mapGet B i).map ConnData.channels) :
    (∃ conn, mapGet A i = some conn ∧ c ∈ conn.channels) ↔
    (∃ conn, mapGet B i = some conn ∧ c ∈ conn.channels) := by
  cases hA : mapGet A i <;> cases hB : mapGet B i <;> rw [hA, hB] at h <;> simp_all

/-! ### Registry invariant preservation -/

/-- The invariant holds at the fresh gateway. -/
theorem registryInvariant_initial : RegistryInvariant initialState := by
  constructor
  · intro channel connId
    simp [inReverseIndex, chanMem, connSubscribed, initialState, mapGet]
  · intro channel subs hc
    simp [initialState, mapGet] at hc

/-- A subscribe with a fresh connection id preserves the invariant. -/
theorem registryInvariant_handleLogsSSE (st : GatewayState) (user : User)
    (q : Option String) (connId : String) (now : Nat)
    (hfresh : mapGet st.connections connId = none) (h : RegistryInvariant st) :
    RegistryInvariant (handleLogsSSE st user q connId now).state := by
  obtain ⟨h1, h2⟩ := h
  constructor
  · intro c i
    simp only [inReverseIndex, connSubscribed, handleLogsSSE]
    rw [chanMem_subscribeAll]
    rw [show ∀ cd : ConnData, mapGet (mapSet st.connections connId cd) i
        = if i = connId then some cd else mapGet st.connections i
      from fun cd => mapGet_mapSet st.connections connId cd i]
    by_cases hic : i = connId
    · subst hic
      simp only [if_pos rfl]
      have hns : ¬ chanMem st.logChannels i c := by
        intro hcm
        rcases (h1 c i).mp hcm with ⟨conn, hconn, -⟩
        rw [hfresh] at hconn
        cases hconn
      constructor
      · rintro (hcm | ⟨-, hc⟩)
        · exact absurd hcm hns
        · exact ⟨_, rfl, hc⟩
      · rintro ⟨conn, hconn, hc⟩
        cases hconn
        exact Or.inr ⟨by trivial, hc⟩
    · simp only [if_neg hic]
      constructor
      · rintro (hcm | ⟨hic2, -⟩)
        · exact (h1 c i).mp hcm
        · exact absurd hic2 hic
      · intro hcs
        exact Or.inl ((h1 c i).mpr hcs)
  · simp only [handleLogsSSE]
    exact entriesNonempty_subscribeAll _ _ _ h2

/-- A publish preserves the invariant: fan-out never touches the reverse
index and only bumps counters on live connections. -/
theorem registryInvariant_handleLogsPublish (st : GatewayState) (token : Option String)
    (b : PublishBody) (now : Nat) (genId : Nat → String) (h : RegistryInvariant st) :
    RegistryInvariant (handleLogsPublish st token b now genId).state := by
  unfold handleLogsPublish
  by_cases hv : validateLogPublisher token b.service = true
  · rw [if_pos hv]
    constructor
    · intro c i
      simp only [inReverseIndex, connSubscribed, broadcastLog]
      rw [connSubscribed_congr _ st.connections i c
        (broadcastList_channels (deriveChannel b) b.logData now genId
          ((mapGet st.logChannels (deriveChannel b)).getD []) st.connections 0 i)]
      exact h.1 c i
    · simp only [broadcastLog]
      exact h.2
  · rw [if_neg hv]
    exact h

/-- A disconnect preserves the invariant. -/
theorem registryInvariant_removeConnection (st : GatewayState) (connId : String)
    (h : RegistryInvariant st) : RegistryInvariant (removeConnection st connId) := by
  unfold removeConnection
  cases hm : mapGet st.connections connId with
  | none => exact h
  | some conn =>
      dsimp only
      constructor
      · intro c i
        simp only [inReverseIndex, connSubscribed]
        rw [chanMem_removeAll]
        simp only [mapGet_mapDelete]
        by_cases hic : i = connId
        · subst hic
          simp only [if_pos rfl]
          constructor
          · rintro ⟨hcm, hnot⟩
            rcases (h.1 c i).mp hcm with ⟨conn2, hconn2, hcc⟩
            rw [hm] at hconn2
            cases hconn2
            exact (hnot ⟨by trivial, hcc⟩).elim
          · rintro ⟨conn2, hfalse, -⟩
            cases hfalse
        · simp only [if_neg hic]
          constructor
          · rintro ⟨hcm, -⟩
            exact (h.1 c i).mp hcm
          · intro hcs
            exact ⟨(h.1 c i).mpr hcs, fun hand => hic hand.1⟩
      · exact entriesNonempty_removeAll _ _ _ h.2

/-! ### The claims -/

/-- C6: at every reachable gateway state the reverse channel index holds a
channel-to-subscribers map that matches exactly the live connections whose
channel set contains the channel, no entry is empty, and an unregistered
connection appears nowhere. -/
theorem c6_registry_invariant (st : GatewayState) (h : Reachable st) :
    RegistryInvariant st := by
  induction h with
  | init => exact registryInvariant_initial
  | subscribe st user q connId now hr hfresh ih =>
      exact registryInvariant_handleLogsSSE st user q connId now hfresh ih
  | publish st token b now genId hr ih =>
      exact registryInvariant_handleLogsPublish st token b now genId ih
  | disconnect st connId hr ih =>
      exact registryInvariant_removeConnection st connId ih

/-- C6 witness: the invariant at a concrete reachable state, one subscribe
away from the fresh gateway. -/
theorem c6_registry_invariant_witness :
    RegistryInvariant (handleLogsSSE initialState
      { id := "u1", workspace_ids := ["workspace123"] }
      (some "logs:etl:workspace123") "conn1" 0).state :=
  c6_registry_invariant _
    (Reachable.subscribe initialState
      { id := "u1", workspace_ids := ["workspace123"] }
      (some "logs:etl:workspace123") "conn1" 0 Reachable.init rfl)

/-- C1 counterexample: with the etl token, declared service "etl" and a
function_id present, the derived channel has service component "function"
(different from the declared service), yet the publish is accepted with
200; and when the authenticator rejects, the 403 body reads "Unauthorized
log publisher", not "unauthorized_service". -/
theorem c1_counterexample :
    (handleLogsPublish initialState (some "l5-etl-token")
        { service := some "etl", workspace_id := some "ws1", workflow_id := none,
          function_id := some "fn1", logData := Json.null } 0 (fun _ => "e1")).status = 200 ∧
    (jsSplit (deriveChannel
        { service := some "etl", workspace_id := some "ws1", workflow_id := none,
          function_id := some "fn1", logData := Json.null }) ':').get? 1 = some "function" ∧
    ("function" : String) ≠ "etl" ∧
    (handleLogsPublish initialState (some "wrong")
        { service := some "etl", workspace_id := some "ws1", workflow_id := none,
          function_id := none, logData := Json.null } 0 (fun _ => "e1")).status = 403 ∧
    (handleLogsPublish initialState (some "wrong")
        { service := some "etl", workspace_id := some "ws1", workflow_id := none,
          function_id := none, logData := Json.null } 0 (fun _ => "e1")).body =
      Json.obj [("error", Json.str "Unauthorized log publisher")] :=
  ⟨by decide, by decide, by decide, by decide, rfl⟩

/-- C1 amended: a publish is accepted (200) iff validateLogPublisher
accepts the token and declared service; the declared service is never
compared against the channel service component; on failure the response is
403 with body error "Unauthorized log publisher", nothing is written and
the state is unchanged. -/
theorem c1_publish_auth_amended (st : GatewayState) (token : Option String)
    (b : PublishBody) (now : Nat) (genId : Nat → String) :
    ((handleLogsPublish st token b now genId).status = 200 ↔
      validateLogPublisher token b.service = true) ∧
    (validateLogPublisher token b.service = false →
      (handleLogsPublish st token b now genId).status = 403 ∧
      (handleLogsPublish st token b now genId).body =
        Json.obj [("error", Json.str "Unauthorized log publisher")] ∧
      (handleLogsPublish st token b now genId).writes = [] ∧
      (handleLogsPublish st token b now genId).state = st) := by
  by_cases hv : validateLogPublisher token b.service = true
  · constructor
    · simp [handleLogsPublish, hv]
    · intro hfalse
      rw [hv] at hfalse
      cases hfalse
  · constructor
    · simp [handleLogsPublish, hv]
    · intro hfalse
      refine ⟨?_, ?_, ?_, ?_⟩ <;> simp [handleLogsPublish, hv, unauthorizedBody]

/-- C1 witness: the amended failure branch at a concrete rejected publish. -/
theorem c1_publish_auth_witness :
    (handleLogsPublish initialState (some "wrong")
        { service := some "etl", workspace_id := some "ws1", workflow_id := none,
          function_id := none, logData := Json.null } 0 (fun _ => "e1")).status = 403 ∧
    (handleLogsPublish initialState (some "wrong")
        { service := some "etl", workspace_id := some "ws1", workflow_id := none,
          function_id := none, logData := Json.null } 0 (fun _ => "e1")).body =
      Json.obj [("error", Json.str "Unauthorized log publisher")] ∧
    (handleLogsPublish initialState (some "wrong")
        { service := some "etl", workspace_id := some "ws1", workflow_id := none,
          function_id := none, logData := Json.null } 0 (fun _ => "e1")).writes = [] ∧
    (handleLogsPublish initialState (some "wrong")
        { service := some "etl", workspace_id := some "ws1", workflow_id := none,
          function_id := none, logData := Json.null } 0 (fun _ => "e1")).state = initialState :=
  (c1_publish_auth_amended initialState (some "wrong")
    { service := some "etl", workspace_id := some "ws1", workflow_id := none,
      function_id := none, logData := Json.null } 0 (fun _ => "e1")).2 (by decide)

/-- C2 counterexample: a present but empty function_id (with workflow_id
set) derives the workflow channel, not the function channel the claim
requires for every present function_id. -/
theorem c2_counterexample :
    ({ service := some "etl", workspace_id := some "ws1", workflow_id := some "wf1",
        function_id := some "", logData := Json.null } : PublishBody).function_id ≠ none ∧
    deriveChannel
      { service := some "etl", workspace_id := some "ws1", workflow_id := some "wf1",
        function_id := some "", logData := Json.null } = "logs:etl:ws1:wf1" ∧
    ("logs:etl:ws1:wf1" : String) ≠ "logs:function:ws1:" :=
  ⟨by decide, by decide, by decide⟩

/-- C2 amended: the channel derivation precedence holds with presence read
as JavaScript truthiness, that is, present with a non-empty value: a truthy
function_id gives the function channel, otherwise a truthy workflow_id
gives the workflow channel, otherwise the bare service/workspace channel. -/
theorem c2_channel_precedence_amended (b : PublishBody) :
    (jsTruthy b.function_id = true →
      deriveChannel b =
        "logs:function:" ++ jsInterp b.workspace_id ++ ":" ++ jsInterp b.function_id) ∧
    (jsTruthy b.function_id = false → jsTruthy b.workflow_id = true →
      deriveChannel b =
        "logs:" ++ jsInterp b.service ++ ":" ++ jsInterp b.workspace_id ++ ":" ++
          jsInterp b.workflow_id) ∧
    (jsTruthy b.function_id = false → jsTruthy b.workflow_id = false →
      deriveChannel b = "logs:" ++ jsInterp b.service ++ ":" ++ jsInterp b.workspace_id) := by
  refine ⟨?_, ?_, ?_⟩
  · intro h1
    simp [deriveChannel, h1]
  · intro h1 h2
    simp [deriveChannel, h1, h2]
  · intro h1 h2
    simp [deriveChannel, h1, h2]

/-- C2 witness: the three precedence branches at concrete bodies. -/
theorem c2_channel_precedence_witness :
    deriveChannel
      { service := some "etl", workspace_id := some "ws", workflow_id := none,
        function_id := some "fn", logData := Json.null } = "logs:function:ws:fn" ∧
    deriveChannel
      { service := some "etl", workspace_id := some "ws", workflow_id := some "wf",
        function_id := none, logData := Json.null } = "logs:etl:ws:wf" ∧
    deriveChannel
      { service := some "etl", workspace_id := some "ws", workflow_id := none,
        function_id := none, logData := Json.null } = "logs:etl:ws" :=
  ⟨(c2_channel_precedence_amended _).1 (by decide),
   (c2_channel_precedence_amended _).2.1 (by decide) (by decide),
   (c2_channel_precedence_amended _).2.2 (by decide) (by decide)⟩

/-- C3 counterexample: a requested channel with an empty service component
is still included when the workspace matches, although the claim requires
the service component to be non-empty. -/
theorem c3_counterexample :
    getUserLogChannels { id := "u1", workspace_ids := ["workspace123"] }
        ["logs::workspace123"] = ["logs::workspace123"] ∧
    (jsSplit "logs::workspace123" ':').get? 1 = some "" :=
  ⟨by decide, by decide⟩

/-- The Boolean channel test, characterized. -/
theorem channelAllowed_iff (user : User) (channel : String) :
    channelAllowed user channel = true ↔
      (jsSplit channel ':').get? 0 = some "logs" ∧
      ∃ w, (jsSplit channel ':').get? 2 = some w ∧ w ∈ user.workspace_ids := by
  unfold channelAllowed
  rw [Bool.and_eq_true]
  constructor
  · rintro ⟨h1, h2⟩
    refine ⟨by simpa using h1, ?_⟩
    cases hg : (jsSplit channel ':').get? 2 with
    | none =>
        rw [hg] at h2
        simp at h2
    | some w =>
        rw [hg] at h2
        exact ⟨w, rfl, by simpa using h2⟩
  · rintro ⟨h1, w, hg, hw⟩
    refine ⟨by simpa using h1, ?_⟩
    rw [hg]
    simpa using hw

/-- C3 amended: a requested channel is included in the subscription iff it
was requested, its first colon component is the literal "logs", and its
third component is one of the workspaces of the principal; no emptiness
check is made on the service component, failing channels are silently
dropped (the result is exactly the passing sublist, no error), and the
subscribe still answers 200. -/
theorem c3_subscribe_filter_amended (user : User) (requested : List String)
    (channel : String) :
    (channel ∈ getUserLogChannels user requested ↔
      channel ∈ requested ∧ (jsSplit channel ':').get? 0 = some "logs" ∧
        ∃ w, (jsSplit channel ':').get? 2 = some w ∧ w ∈ user.workspace_ids) ∧
    getUserLogChannels user requested = requested.filter (channelAllowed user) ∧
    (∀ st q connId now, (handleLogsSSE st user q connId now).status = 200) := by
  refine ⟨?_, rfl, fun st q connId now => rfl⟩
  rw [getUserLogChannels, List.mem_filter, channelAllowed_iff]

/-- C4: every subscribe is answered 200 and the first and only record the
handler writes is the data-only connection record with type "connection",
status "connected" and channels the authorized list, also when that list
is empty. -/
theorem c4_handshake (st : GatewayState) (user : User) (q : Option String)
    (connId : String) (now : Nat) :
    (handleLogsSSE st user q connId now).status = 200 ∧
    (handleLogsSSE st user q connId now).writes =
      ["data: " ++ renderJson (Json.obj
        [("type", Json.str "connection"),
         ("status", Json.str "connected"),
         ("channels", Json.arr ((getUserLogChannels user (requestedChannelsOf q)).map Json.str)),
         ("userId", Json.str user.id),
         ("connectionId", Json.str connId),
         ("timestamp", Json.num now)]) ++ "\n\n"] :=
  ⟨rfl, rfl⟩

/-- C5: every data record written during a fan-out has the wire form of an
id line, a data line and a blank line, where the JSON object has exactly
the fields channel, data, timestamp and id in that order, the id field
equals the id line value, and the data field is the published payload
verbatim. -/
theorem c5_wire_format (st : GatewayState) (channel : String) (logData : Json)
    (now : Nat) (genId : Nat → String) (ev : WriteEvent)
    (hev : ev ∈ (broadcastLog st channel logData now genId).2.1) :
    ∃ eid, ev.wire = "id: " ++ eid ++ "\ndata: " ++
      renderJson (Json.obj
        [("channel", Json.str channel),
         ("data", logData),
         ("timestamp", Json.num now),
         ("id", Json.str eid)]) ++ "\n\n" := by
  obtain ⟨eid, hw⟩ := broadcastList_wire_form channel logData now genId
    ((mapGet st.logChannels channel).getD []) st.connections 0 ev hev
  exact ⟨eid, hw⟩

/-- C5 witness: the wire form of the one record of a concrete fan-out. -/
theorem c5_wire_format_witness :
    ∃ eid, (WriteEvent.mk "c1"
        (wireRecord "e0" (mkLogMessage "logs:etl:ws1" (Json.str "p") 7 "e0"))).wire =
      "id: " ++ eid ++ "\ndata: " ++
        renderJson (Json.obj
          [("channel", Json.str "logs:etl:ws1"),
           ("data", Json.str "p"),
           ("timestamp", Json.num 7),
           ("id", Json.str eid)]) ++ "\n\n" :=
  c5_wire_format
    { connections := [("c1",
        { userId := "u1", channels := ["logs:etl:ws1"], connectedAt := 0, logsSent := 0 })],
      logChannels := [("logs:etl:ws1", ["c1"])],
      totalConnections := 1, logsPublished := 0 }
    "logs:etl:ws1" (Json.str "p") 7 (fun _ => "e0")
    (WriteEvent.mk "c1" (wireRecord "e0" (mkLogMessage "logs:etl:ws1" (Json.str "p") 7 "e0")))
    (by decide)

/-- C7 counterexample: requesting the same channel twice stores a
duplicated channels list on the connection and a duplicated handshake
channels list, unlike requesting it once. -/
theorem c7_counterexample :
    (mapGet (handleLogsSSE initialState { id := "u1", workspace_ids := ["workspace123"] }
          (some "logs:etl:workspace123,logs:etl:workspace123") "conn1" 0).state.connections
        "conn1").map ConnData.channels
      = some ["logs:etl:workspace123", "logs:etl:workspace123"] ∧
    (mapGet (handleLogsSSE initialState { id := "u1", workspace_ids := ["workspace123"] }
          (some "logs:etl:workspace123") "conn1" 0).state.connections
        "conn1").map ConnData.channels
      = some ["logs:etl:workspace123"] ∧
    (handleLogsSSE initialState { id := "u1", workspace_ids := ["workspace123"] }
        (some "logs:etl:workspace123,logs:etl:workspace123") "conn1" 0).writes
      ≠ (handleLogsSSE initialState { id := "u1", workspace_ids := ["workspace123"] }
          (some "logs:etl:workspace123") "conn1" 0).writes :=
  ⟨by decide, by decide, by decide⟩

/-- C7 amended: two subscribe queries requesting the same channel set
(duplicates included or not) produce the same reverse index membership and
subscribe the new connection to the same channels; the stored channels
list and the handshake record, however, keep duplicates. -/
theorem c7_dedup_amended (st : GatewayState) (user : User) (q1 q2 : Option String)
    (connId : String) (now : Nat)
    (h : ∀ c, c ∈ requestedChannelsOf q1 ↔ c ∈ requestedChannelsOf q2) :
    (∀ i c, inReverseIndex (handleLogsSSE st user q1 connId now).state i c ↔
      inReverseIndex (handleLogsSSE st user q2 connId now).state i c) ∧
    (∀ c, connSubscribed (handleLogsSSE st user q1 connId now).state connId c ↔
      connSubscribed (handleLogsSSE st user q2 connId now).state connId c) := by
  have hall : ∀ c, c ∈ getUserLogChannels user (requestedChannelsOf q1) ↔
      c ∈ getUserLogChannels user (requestedChannelsOf q2) := by
    intro c
    simp only [getUserLogChannels, List.mem_filter]
    rw [h c]
  constructor
  · intro i c
    simp only [inReverseIndex, handleLogsSSE]
    rw [chanMem_subscribeAll, chanMem_subscribeAll, hall c]
  · have key : ∀ (q : Option String) (c : String),
        connSubscribed (handleLogsSSE st user q connId now).state connId c ↔
          c ∈ getUserLogChannels user (requestedChannelsOf q) := by
      intro q c
      simp only [connSubscribed, handleLogsSSE]
      constructor
      · rintro ⟨conn, hconn, hc⟩
        rw [mapGet_mapSet, if_pos rfl] at hconn
        cases hconn
        exact hc
      · intro hc
        exact ⟨_, by rw [mapGet_mapSet, if_pos rfl], hc⟩
    intro c
    rw [key q1 c, key q2 c]
    exact hall c

/-- C7 witness: the amended equivalence at a concrete duplicated query. -/
theorem c7_dedup_witness :
    (∀ i c, inReverseIndex (handleLogsSSE initialState
        { id := "u1", workspace_ids := ["workspace123"] }
        (some "logs:etl:workspace123,logs:etl:workspace123") "conn1" 0).state i c ↔
      inReverseIndex (handleLogsSSE initialState
        { id := "u1", workspace_ids := ["workspace123"] }
        (some "logs:etl:workspace123") "conn1" 0).state i c) ∧
    (∀ c, connSubscribed (handleLogsSSE initialState
        { id := "u1", workspace_ids := ["workspace123"] }
        (some "logs:etl:workspace123,logs:etl:workspace123") "conn1" 0).state "conn1" c ↔
      connSubscribed (handleLogsSSE initialState
        { id := "u1", workspace_ids := ["workspace123"] }
        (some "logs:etl:workspace123") "conn1" 0).state "conn1" c) :=
  c7_dedup_amended initialState { id := "u1", workspace_ids := ["workspace123"] }
    (some "logs:etl:workspace123,logs:etl:workspace123")
    (some "logs:etl:workspace123") "conn1" 0
    (by
      intro c
      rw [show requestedChannelsOf (some "logs:etl:workspace123,logs:etl:workspace123")
          = ["logs:etl:workspace123", "logs:etl:workspace123"] from by decide,
        show requestedChannelsOf (some "logs:etl:workspace123")
          = ["logs:etl:workspace123"] from by decide]
      simp [List.mem_cons])

/-- C8 counterexample: a subscriber that was already sent 256 envelopes
still receives the next one, which is counted in delivered; nothing is
ever dropped for capacity. -/
theorem c8_counterexample :
    (broadcastLog
        { connections := [("c1",
            { userId := "u1", channels := ["logs:etl:ws1"], connectedAt := 0,
              logsSent := 256 })],
          logChannels := [("logs:etl:ws1", ["c1"])],
          totalConnections := 1, logsPublished := 256 }
        "logs:etl:ws1" (Json.str "payload") 999 (fun _ => "e257")).2.2 = 1 ∧
    (broadcastLog
        { connections := [("c1",
            { userId := "u1", channels := ["logs:etl:ws1"], connectedAt := 0,
              logsSent := 256 })],
          logChannels := [("logs:etl:ws1", ["c1"])],
          totalConnections := 1, logsPublished := 256 }
        "logs:etl:ws1" (Json.str "payload") 999 (fun _ => "e257")).2.1.length = 1 :=
  ⟨by decide, by decide⟩

/-- C8 amended: the gateway has no per-connection send queue: fan-out
writes the envelope synchronously to every live subscriber of the channel,
one write per delivery, and delivered counts exactly the live subscriber
ids, independent of how much each connection was already sent. -/
theorem c8_no_queue_amended (st : GatewayState) (channel : String) (logData : Json)
    (now : Nat) (genId : Nat → String) :
    (broadcastLog st channel logData now genId).2.2 =
      ((mapGet st.logChannels channel).getD []).countP
        (fun cid => (mapGet st.connections cid).isSome) ∧
    (broadcastLog st channel logData now genId).2.1.length =
      (broadcastLog st channel logData now genId).2.2 := by
  constructor
  · have h := broadcastList_delivered channel logData now genId
      ((mapGet st.logChannels channel).getD []) st.connections 0
    simpa [broadcastLog] using h
  · have h := broadcastList_events_count channel logData now genId
      ((mapGet st.logChannels channel).getD []) st.connections 0
    simp only [broadcastLog] at *
    omega

/-- C9: the single token "service-token" passes service authentication with
every declared service, and such a publish is accepted. -/
theorem c9_service_token_wildcard (s : String) (st : GatewayState) (b : PublishBody)
    (now : Nat) (genId : Nat → String) (hb : b.service = some s) :
    validateLogPublisher (some "service-token") (some s) = true ∧
    (handleLogsPublish st (some "service-token") b now genId).status = 200 := by
  have hv : validateLogPublisher (some "service-token") (some s) = true := by
    simp [validateLogPublisher, validTokens]
  refine ⟨hv, ?_⟩
  have hv2 : validateLogPublisher (some "service-token") b.service = true := by
    rw [hb]
    exact hv
  simp [handleLogsPublish, hv2]

/-- C9 witness: the wildcard token at a concrete service name. -/
theorem c9_service_token_wildcard_witness :
    validateLogPublisher (some "service-token") (some "anything") = true ∧
    (handleLogsPublish initialState (some "service-token")
        { service := some "anything", workspace_id := some "ws", workflow_id := none,
          function_id := none, logData := Json.null } 0 (fun _ => "e0")).status = 200 :=
  c9_service_token_wildcard "anything" initialState
    { service := some "anything", workspace_id := some "ws", workflow_id := none,
      function_id := none, logData := Json.null } 0 (fun _ => "e0") rfl

/-- C10 counterexample: the token "toString" is not one of the recognized
service tokens, yet the property lookup finds the member inherited from
Object.prototype, which is not undefined, so validateLogPublisher returns
false and the publish is rejected with 403 rather than proceeding. -/
theorem c10_counterexample :
    ("toString" : String) ≠ "l5-etl-token" ∧ ("toString" : String) ≠ "faas-token" ∧
    ("toString" : String) ≠ "function-token" ∧ ("toString" : String) ≠ "service-token" ∧
    validateLogPublisher (some "toString") none = false ∧
    (handleLogsPublish initialState (some "toString")
        { service := none, workspace_id := some "ws", workflow_id := none,
          function_id := none, logData := Json.null } 0 (fun _ => "e0")).status = 403 :=
  ⟨by decide, by decide, by decide, by decide, by decide, by decide⟩

/-- C10 amended: a token that is neither a recognized service token nor a
property name inherited from Object.prototype, together with an absent
service field, passes service authentication (undefined strictly equals
undefined), so the publish proceeds to fan-out with 200 instead of being
rejected with 403; for inherited names such as "toString" the lookup is
not undefined and the publish is rejected. -/
theorem c10_unknown_token_missing_service_amended (t : String) (st : GatewayState)
    (b : PublishBody) (now : Nat) (genId : Nat → String)
    (h1 : t ≠ "l5-etl-token") (h2 : t ≠ "faas-token") (h3 : t ≠ "function-token")
    (h4 : t ≠ "service-token") (h5 : t ∉ objectProtoKeys) (hb : b.service = none) :
    validateLogPublisher (some t) none = true ∧
    (handleLogsPublish st (some t) b now genId).status = 200 := by
  have hv : validateLogPublisher (some t) none = true := by
    simp [validateLogPublisher, validTokens, jsPropOfService, h1, h2, h3, h4, h5]
  refine ⟨hv, ?_⟩
  have hv2 : validateLogPublisher (some t) b.service = true := by
    rw [hb]
    exact hv
  simp [handleLogsPublish, hv2]

/-- C10 witness: a concrete token outside both the recognized tokens and
the inherited property names, with a body without a service. -/
theorem c10_unknown_token_missing_service_witness :
    validateLogPublisher (some "wrong-token") none = true ∧
    (handleLogsPublish initialState (some "wrong-token")
        { service := none, workspace_id := some "ws", workflow_id := none,
          function_id := none, logData := Json.null } 0 (fun _ => "e0")).status = 200 :=
  c10_unknown_token_missing_service_amended "wrong-token" initialState
    { service := none, workspace_id := some "ws", workflow_id := none,
      function_id := none, logData := Json.null } 0 (fun _ => "e0")
    (by decide) (by decide) (by decide) (by decide) (by decide) rfl

end LogsGateway
